import Mathlib

/-!
# Verification of the EC2 metrics report pipeline (`src/report.py`)

Shallow embedding of the Python script `report.py`. The script reads AWS
profiles from `~/.aws/config`, lists EC2 instances per profile/region,
queries CloudWatch for four metrics per instance, assembles one row per
instance, exports the rows to an Excel file and mails the file.

External services (the configuration file, the EC2 `describe_instances`
call, the CloudWatch `get_metric_statistics` call, and the SMTP session)
are modelled as an explicit environment `Env`: each call site receives the
outcome the environment assigns to its arguments.  The error constructors
of the outcome types correspond exactly to the exception classes the
source catches at that call site (`NoCredentialsError` /
`PartialCredentialsError`, and `BotoCoreError`).
-/

namespace EC2Report

/-- A Python value stored in a report cell: the script puts either a float
(a CloudWatch average) or the string sentinel `"N/A"` into each cell.
Floats are modelled as rationals; the script never computes with them,
they are passed through unchanged. -/
inductive Cell where
  | str (s : String)
  | num (v : Rat)
  deriving DecidableEq, Repr

/-- One CloudWatch datapoint.  The source only reads its optional
`Average` field (`response['Datapoints'][0].get('Average', 'N/A')`). -/
structure Datapoint where
  Average : Option Rat
  deriving DecidableEq, Repr

/-- A successful `get_metric_statistics` response.  `Datapoints` is
optional because the source guards with `'Datapoints' in response`. -/
structure CWResponse where
  Datapoints : Option (List Datapoint)
  deriving DecidableEq, Repr

/-- Outcome of one CloudWatch `get_metric_statistics` call: a response, or
one of the exception classes caught in the source.  `credentialError`
stands for `NoCredentialsError` / `PartialCredentialsError`,
`botoCoreError` for `BotoCoreError`. -/
inductive QueryResult where
  | ok (response : CWResponse)
  | credentialError
  | botoCoreError
  deriving DecidableEq, Repr

/-- `get_metric_statistics` of `report.py` (lines 56-82), as a function of
the call outcome: on a response it takes the first datapoint's `Average`
(defaulting to `"N/A"` when absent or when there are no datapoints), and
both caught exception classes are logged and replaced by `"N/A"`. -/
def get_metric_statistics : QueryResult → Cell
  | .ok r =>
    match r.Datapoints with
    | some (d :: _) =>
      match d.Average with
      | some v => .num v
      | none => .str "N/A"
    | some [] => .str "N/A"
    | none => .str "N/A"
  | .credentialError => .str "N/A"
  | .botoCoreError => .str "N/A"

/-- A query outcome counts as failed when it is one of the two caught
exception classes, or a response with zero datapoints (no `Datapoints`
key, or an empty list). -/
def failedQuery (q : QueryResult) : Prop :=
  q = .credentialError ∨ q = .botoCoreError ∨
    q = .ok ⟨none⟩ ∨ q = .ok ⟨some []⟩

/-- Outcome of one EC2 `describe_instances` call: nested reservations
(each a list of instance ids, mirroring
`response['Reservations'][i]['Instances'][j]['InstanceId']`), or one of
the exception classes caught in the source. -/
inductive Ec2Result where
  | ok (reservations : List (List String))
  | credentialError
  | botoCoreError
  deriving DecidableEq, Repr

/-- An error raised by `configparser` on a `get` without fallback. -/
inductive CfgError where
  | noSection
  | noOption
  deriving DecidableEq, Repr

/-- The parsed configuration file: named sections in file order (as
`configparser.sections()` yields them, which excludes the special
`DEFAULT` section), and the `DEFAULT` section's options.  `configparser`
rejects duplicate section names, so section names are unique. -/
structure ConfigFile where
  sections : List (String × List (String × String))
  defaults : List (String × String)
  deriving DecidableEq, Repr

/-- `configparser.ConfigParser.get(section, option)` without fallback:
the section's own options, then the `DEFAULT` options, else an error. -/
def configGet (cfg : ConfigFile) (sec key : String) : Except CfgError String :=
  match cfg.sections.lookup sec with
  | none => .error .noSection
  | some opts =>
    match opts.lookup key with
    | some v => .ok v
    | none =>
      match cfg.defaults.lookup key with
      | some v => .ok v
      | none => .error .noOption

/-- `configparser.ConfigParser.get(section, option, fallback=fb)`: the
fallback value replaces both `NoSectionError` and `NoOptionError`. -/
def configGetD (cfg : ConfigFile) (sec key fb : String) : String :=
  match configGet cfg sec key with
  | .ok v => v
  | .error _ => fb

/-- The loop body of `get_profiles` (lines 23-25).  Python evaluates the
argument `config.get('default', 'region')` of the `fallback=` keyword
eagerly on every iteration, before `config.get(profile, 'region', ...)`
runs, so its exceptions propagate even when the section has its own
region. -/
def profilesLoop (cfg : ConfigFile) :
    List (String × List (String × String)) →
    Except CfgError (List (String × String))
  | [] => .ok []
  | (p, _) :: rest =>
    match configGet cfg "default" "region" with
    | .error e => .error e
    | .ok fb =>
      match profilesLoop cfg rest with
      | .error e => .error e
      | .ok tail => .ok ((p, configGetD cfg p "region" fb) :: tail)

/-- `get_profiles` of `report.py` (lines 18-27).  A missing
`~/.aws/config` makes `config.read` load nothing (`sections() = []`), so
the store is an `Option ConfigFile` with `none` for the missing file. -/
def get_profiles (store : Option ConfigFile) :
    Except CfgError (List (String × String)) :=
  match store with
  | none => .ok []
  | some cfg => profilesLoop cfg cfg.sections

/-- An SMTP failure during `send_email`: `SMTPAuthenticationError` from
`server.login`, or a transmission error from `server.send_message`. -/
inductive MailError where
  | authenticationError
  | transmissionError
  deriving DecidableEq, Repr

/-- The environment of one run: the configuration store and the outcome
every external call would produce.  `metricQuery` is keyed by profile,
region, instance id, metric name and namespace; `describeInstances` by
profile and region. -/
structure Env where
  config : Option ConfigFile
  describeInstances : String → String → Ec2Result
  metricQuery : String → String → String → String → String → QueryResult
  emailRecipient : Option String
  smtpOutcome : Except MailError Unit

/-- The four metric cells `get_instance_metrics` computes for one
instance; the Python dict literal (lines 49-54) has exactly these four
keys. -/
structure Metrics where
  cpu : Cell
  memory : Cell
  threads : Cell
  processes : Cell
  deriving DecidableEq, Repr

/-- `get_instance_metrics` of `report.py` (lines 29-54): four CloudWatch
queries with fixed metric names and namespaces, over the trailing
10-minute window at 60-second period (the window is part of the query the
environment answers). -/
def get_instance_metrics (env : Env) (profile region instance_id : String) : Metrics where
  cpu := get_metric_statistics (env.metricQuery profile region instance_id "CPUUtilization" "AWS/EC2")
  memory := get_metric_statistics (env.metricQuery profile region instance_id "mem_used_percent" "CWAgent")
  threads := get_metric_statistics (env.metricQuery profile region instance_id "procstat_threads" "CWAgent")
  processes := get_metric_statistics (env.metricQuery profile region instance_id "procstat_processes" "CWAgent")

/-- The dict returned by `get_instance_metrics`, as the ordered key/value
list of the Python dict literal of lines 49-54. -/
def Metrics.entries (m : Metrics) : List (String × Cell) :=
  [("CPU Utilization", m.cpu), ("Memory Utilization", m.memory),
   ("Threads Running", m.threads), ("Processes Running", m.processes)]

/-- The fixed metric-name set, in the order of the dict literal. -/
def metricNames : List String :=
  ["CPU Utilization", "Memory Utilization", "Threads Running", "Processes Running"]

/-- `get_all_instances` of `report.py` (lines 91-107): flatten the nested
reservation/instance structure; both caught exception classes are logged
and replaced by the empty list. -/
def get_all_instances (env : Env) (profile region : String) : List String :=
  match env.describeInstances profile region with
  | .ok reservations => reservations.foldl (fun acc res => acc ++ res) []
  | .credentialError => []
  | .botoCoreError => []

/-- One row appended to `metrics_report` in the main loop (lines 167-175):
profile, region, instance id, and the four metric values read back out of
the `get_instance_metrics` dict. -/
structure Row where
  profile : String
  region : String
  instanceId : String
  metrics : Metrics
  deriving DecidableEq, Repr

/-- The row as the Python dict of lines 167-175: an ordered key/value list
with the seven literal keys. -/
def Row.entries (r : Row) : List (String × Cell) :=
  [("Profile", .str r.profile), ("Region", .str r.region),
   ("Instance ID", .str r.instanceId)] ++ r.metrics.entries

/-- The row built for one instance in the main loop. -/
def mkRow (env : Env) (profile region instance_id : String) : Row :=
  { profile := profile, region := region, instanceId := instance_id,
    metrics := get_instance_metrics env profile region instance_id }

/-- The report-assembly part of `__main__` (lines 155-175): for each
profile in `get_profiles` order, for each instance in discovery order,
append one row.  A `configparser` error from `get_profiles` propagates
(nothing catches it). -/
def buildReport (env : Env) : Except CfgError (List Row) :=
  match get_profiles env.config with
  | .error e => .error e
  | .ok profiles =>
    .ok (profiles.flatMap fun pr =>
      (get_all_instances env pr.1 pr.2).map fun iid => mkRow env pr.1 pr.2 iid)

/-- The column order `pd.DataFrame` derives from a list of dicts: keys in
order of first appearance. -/
def dfInsertKey (acc : List String) (k : String) : List String :=
  if k ∈ acc then acc else acc ++ [k]

/-- Columns of `pd.DataFrame(data)` for a list of dicts `data`: the union
of all keys in first-appearance order (empty for an empty list). -/
def dfColumns (data : List (List (String × Cell))) : List String :=
  ((data.map fun row => row.map Prod.fst).flatten).foldl dfInsertKey []

/-- The tabular artifact `df.to_excel(filename, index=False)` writes: a
header row of column names, then one data row per input dict, each cell
the dict's value for that column (`none` — pandas `NaN` — when the key is
absent).  Reading the file back recovers exactly this table. -/
structure Table where
  header : List String
  rows : List (List (Option Cell))
  deriving DecidableEq, Repr

/-- `export_to_excel` of `report.py` (lines 109-116): build the DataFrame
from the list of row dicts and serialize it with a header row and no
index column. -/
def export_to_excel (report : List Row) : Table :=
  let data := report.map Row.entries
  let cols := dfColumns data
  { header := cols, rows := data.map fun row => cols.map fun c => row.lookup c }

/-- The fixed schema of a report row dict, in dict-literal order. -/
def fixedColumns : List String :=
  ["Profile", "Region", "Instance ID", "CPU Utilization",
   "Memory Utilization", "Threads Running", "Processes Running"]

/-- `send_email` of `report.py` (lines 118-152): the SMTP session
(STARTTLS, `login`, `send_message`) is an external call whose outcome the
environment supplies; the source wraps none of it in `try/except`, so an
`SMTPAuthenticationError` or transmission error propagates to the
caller. -/
def send_email (env : Env) : Except MailError Unit :=
  env.smtpOutcome

/-- An externally visible effect of the run. -/
inductive Event where
  | fileWrite (filename : String) (t : Table)
  | emailSent (recipient : Option String) (filename : String)
  deriving DecidableEq, Repr

/-- A run-terminating exception: a `configparser` error from
`get_profiles`, or an SMTP error from `send_email`. -/
inductive RunError where
  | configError (e : CfgError)
  | mailError (e : MailError)
  deriving DecidableEq, Repr

/-- The default report filename of `export_to_excel`. -/
def reportFilename : String := "ec2_metrics_report.xlsx"

/-- The whole `__main__` block (lines 154-183): build the report, write
the Excel file, then send the mail.  The value is the ordered list of
effects performed before the run ended, paired with the uncaught
exception that terminated it, if any. -/
def mainRun (env : Env) : List Event × Option RunError :=
  match buildReport env with
  | .error e => ([], some (.configError e))
  | .ok rows =>
    let t := export_to_excel rows
    match send_email env with
    | .error e => ([.fileWrite reportFilename t], some (.mailError e))
    | .ok _ =>
      ([.fileWrite reportFilename t,
        .emailSent env.emailRecipient reportFilename], none)

/-! ## Concrete environments used by the witnesses -/

/-- A one-profile configuration: section `default` with a region. -/
def cfgW : ConfigFile :=
  { sections := [("default", [("region", "us-east-1")])], defaults := [] }

/-- An environment in which every external call succeeds: one profile,
one instance, every metric query returns one datapoint with average 3. -/
def envW : Env :=
  { config := some cfgW
    describeInstances := fun _ _ => .ok [["i-abc123"]]
    metricQuery := fun _ _ _ _ _ => .ok ⟨some [⟨some 3⟩]⟩
    emailRecipient := some "ops@example.com"
    smtpOutcome := .ok () }

/-- The single row `envW` produces. -/
def rowW : Row :=
  { profile := "default", region := "us-east-1", instanceId := "i-abc123"
    metrics := { cpu := .num 3, memory := .num 3, threads := .num 3, processes := .num 3 } }

/-- An environment in which every AWS call raises a credential error and
the SMTP login fails. -/
def envFail : Env :=
  { config := some cfgW
    describeInstances := fun _ _ => .credentialError
    metricQuery := fun _ _ _ _ _ => .credentialError
    emailRecipient := none
    smtpOutcome := .error .authenticationError }

/-- An environment with a missing configuration file (zero profiles). -/
def envEmpty : Env :=
  { config := none
    describeInstances := fun _ _ => .ok []
    metricQuery := fun _ _ _ _ _ => .ok ⟨some []⟩
    emailRecipient := some "ops@example.com"
    smtpOutcome := .ok () }

/-! ## Helper lemmas -/

/-- Every value `get_metric_statistics` returns is a number or the
`"N/A"` sentinel string. -/
lemma gms_shape (q : QueryResult) :
    get_metric_statistics q = .str "N/A" ∨ ∃ v, get_metric_statistics q = .num v := by
  rcases q with r | _ | _
  · rcases r with ⟨_ | dps⟩
    · exact .inl rfl
    · rcases dps with _ | ⟨d, t⟩
      · exact .inl rfl
      · rcases d with ⟨_ | v⟩
        · exact .inl rfl
        · exact .inr ⟨v, rfl⟩
  · exact .inl rfl
  · exact .inl rfl

/-- A failed query always produces the sentinel. -/
lemma gms_failed (q : QueryResult) (h : failedQuery q) :
    get_metric_statistics q = .str "N/A" := by
  rcases h with h | h | h | h <;> subst h <;> rfl

/-! ## Claim theorems -/

/-- C2: for every single-metric query made by `get_instance_metrics`, if
the query errors (credential error or `BotoCoreError`) or returns zero
datapoints, the resulting value is the `"N/A"` sentinel; the failure is
confined to that metric — the result still has all four entries, each of
the other entries depending only on its own query. -/
theorem metric_failure_yields_sentinel (env : Env) (p r i : String) :
    (failedQuery (env.metricQuery p r i "CPUUtilization" "AWS/EC2") →
      (get_instance_metrics env p r i).cpu = .str "N/A") ∧
    (failedQuery (env.metricQuery p r i "mem_used_percent" "CWAgent") →
      (get_instance_metrics env p r i).memory = .str "N/A") ∧
    (failedQuery (env.metricQuery p r i "procstat_threads" "CWAgent") →
      (get_instance_metrics env p r i).threads = .str "N/A") ∧
    (failedQuery (env.metricQuery p r i "procstat_processes" "CWAgent") →
      (get_instance_metrics env p r i).processes = .str "N/A") ∧
    (get_instance_metrics env p r i).entries.map Prod.fst = metricNames :=
  ⟨fun h => gms_failed _ h, fun h => gms_failed _ h, fun h => gms_failed _ h,
   fun h => gms_failed _ h, rfl⟩

/-- Witness for C2 at `envFail`, where every query raises a credential
error. -/
theorem metric_failure_yields_sentinel_witness :
    (get_instance_metrics envFail "default" "us-east-1" "i-abc123").cpu = .str "N/A" ∧
    (get_instance_metrics envFail "default" "us-east-1" "i-abc123").memory = .str "N/A" ∧
    (get_instance_metrics envFail "default" "us-east-1" "i-abc123").threads = .str "N/A" ∧
    (get_instance_metrics envFail "default" "us-east-1" "i-abc123").processes = .str "N/A" := by
  have h := metric_failure_yields_sentinel envFail "default" "us-east-1" "i-abc123"
  exact ⟨h.1 (Or.inl rfl), h.2.1 (Or.inl rfl), h.2.2.1 (Or.inl rfl), h.2.2.2.1 (Or.inl rfl)⟩

/-- C3: a successful query with at least one datapoint yields the first
datapoint's average; all later datapoints are discarded (replacing them
by any other list leaves the result unchanged). -/
theorem first_datapoint_only (d : Datapoint) (rest rest2 : List Datapoint) (v : Rat)
    (h : d.Average = some v) :
    get_metric_statistics (.ok ⟨some (d :: rest)⟩) = .num v ∧
    get_metric_statistics (.ok ⟨some (d :: rest)⟩) =
      get_metric_statistics (.ok ⟨some (d :: rest2)⟩) := by
  refine ⟨?_, rfl⟩
  simp [get_metric_statistics, h]

/-- Witness for C3: a two-datapoint response yields the first average. -/
theorem first_datapoint_only_witness :
    get_metric_statistics (.ok ⟨some [⟨some 3⟩, ⟨some 99⟩]⟩) = .num 3 ∧
    get_metric_statistics (.ok ⟨some [⟨some 3⟩, ⟨some 99⟩]⟩) =
      get_metric_statistics (.ok ⟨some [⟨some 3⟩]⟩) :=
  first_datapoint_only ⟨some 3⟩ [⟨some 99⟩] [] 3 rfl

/-- C10: a non-empty datapoint list whose first datapoint has no
`Average` field yields the `"N/A"` sentinel (`dict.get` default), not an
exception or an absent value. -/
theorem missing_average_yields_sentinel (rest : List Datapoint) :
    get_metric_statistics (.ok ⟨some ({ Average := none } :: rest)⟩) = .str "N/A" := rfl

/-- Every row of a successfully built report is the row built for some
profile/region/instance triple of the run. -/
lemma report_row_is_mkRow (env : Env) (rows : List Row) (row : Row)
    (h1 : buildReport env = .ok rows) (h2 : row ∈ rows) :
    ∃ p r i, row = mkRow env p r i := by
  unfold buildReport at h1
  cases hp : get_profiles env.config with
  | error e => rw [hp] at h1; cases h1
  | ok profiles =>
    rw [hp] at h1
    have hrows : rows = profiles.flatMap fun pr =>
        (get_all_instances env pr.1 pr.2).map fun iid => mkRow env pr.1 pr.2 iid := by
      cases h1; rfl
    subst hrows
    obtain ⟨pr, _, hrow⟩ := List.mem_flatMap.mp h2
    obtain ⟨iid, _, hiid⟩ := List.mem_map.mp hrow
    exact ⟨pr.1, pr.2, iid, hiid.symm⟩

/-- C1: every row of a built report has metric entries for exactly the
four fixed metric names, in the fixed order, each entry present and
holding either a numeric value or the `"N/A"` sentinel. -/
theorem report_rows_have_fixed_metric_keys (env : Env) (rows : List Row) (row : Row)
    (h1 : buildReport env = .ok rows) (h2 : row ∈ rows) :
    row.metrics.entries.map Prod.fst = metricNames ∧
    ∀ m ∈ metricNames, ∃ c, row.metrics.entries.lookup m = some c ∧
      (c = .str "N/A" ∨ ∃ v, c = .num v) := by
  obtain ⟨p, r, i, hrow⟩ := report_row_is_mkRow env rows row h1 h2
  subst hrow
  refine ⟨rfl, ?_⟩
  intro m hm
  simp only [metricNames, List.mem_cons, List.not_mem_nil, or_false] at hm
  rcases hm with rfl | rfl | rfl | rfl
  · exact ⟨_, rfl, gms_shape _⟩
  · exact ⟨_, rfl, gms_shape _⟩
  · exact ⟨_, rfl, gms_shape _⟩
  · exact ⟨_, rfl, gms_shape _⟩

/-- Witness for C1 at `envW`, whose report is the single row `rowW`. -/
theorem report_rows_have_fixed_metric_keys_witness :
    rowW.metrics.entries.map Prod.fst = metricNames ∧
    ∀ m ∈ metricNames, ∃ c, rowW.metrics.entries.lookup m = some c ∧
      (c = .str "N/A" ∨ ∃ v, c = .num v) :=
  report_rows_have_fixed_metric_keys envW [rowW] rowW (by rfl) (by decide)

/-- A `describe_instances` outcome counts as failed when it is one of the
two caught exception classes. -/
def failedDescribe (d : Ec2Result) : Prop :=
  d = .credentialError ∨ d = .botoCoreError

/-- Pointwise-equal functions flat-map to the same list. -/
lemma flatMap_congr {α β : Type} {l : List α} {f g : α → List β}
    (h : ∀ a ∈ l, f a = g a) : l.flatMap f = l.flatMap g := by
  induction l with
  | nil => rfl
  | cons x xs ih =>
    simp only [List.flatMap_cons]
    rw [h x (List.mem_cons_self x xs), ih fun a ha => h a (List.mem_cons_of_mem x ha)]

/-- Replacing a failing `describe_instances` outcome by an empty success
does not change any instance listing. -/
lemma get_all_instances_patch (env : Env) (p r : String)
    (h : failedDescribe (env.describeInstances p r)) (a b : String) :
    get_all_instances { env with describeInstances := fun p2 r2 =>
      if p2 = p ∧ r2 = r then .ok [] else env.describeInstances p2 r2 } a b =
    get_all_instances env a b := by
  by_cases hab : a = p ∧ b = r
  · obtain ⟨rfl, rfl⟩ := hab
    rcases h with h | h <;> simp [get_all_instances, h]
  · simp [get_all_instances, hab]

/-- C5: when `describe_instances` fails with a caught exception class for
a profile/region, the listing is empty, and the whole run behaves exactly
as if that profile had zero instances: the report is the one built with
that outcome replaced by an empty success. -/
theorem enumerator_failure_soft (env : Env) (p r : String)
    (h : failedDescribe (env.describeInstances p r)) :
    get_all_instances env p r = [] ∧
    buildReport { env with describeInstances := fun p2 r2 =>
      if p2 = p ∧ r2 = r then .ok [] else env.describeInstances p2 r2 } = buildReport env := by
  constructor
  · rcases h with h | h <;> simp [get_all_instances, h]
  · unfold buildReport
    cases hp : get_profiles env.config with
    | error e => rfl
    | ok profiles =>
      simp only []
      congr 1
      refine flatMap_congr fun pr _ => ?_
      rw [get_all_instances_patch env p r h]
      exact List.map_congr_left fun iid _ => rfl

/-- Witness for C5 at `envFail`, where every `describe_instances` call
raises a credential error. -/
theorem enumerator_failure_soft_witness :
    get_all_instances envFail "default" "us-east-1" = [] ∧
    buildReport { envFail with describeInstances := fun p2 r2 =>
      if p2 = "default" ∧ r2 = "us-east-1" then .ok []
      else envFail.describeInstances p2 r2 } = buildReport envFail :=
  enumerator_failure_soft envFail "default" "us-east-1" (Or.inl rfl)

/-- C7: two runs whose external services answer identically build the
identical report (same rows, same order, same content), and the rows come
in discovery order: profiles in `get_profiles` order, then instances in
listing order. -/
theorem report_deterministic (env1 env2 : Env)
    (hc : env1.config = env2.config)
    (hd : ∀ p r, env1.describeInstances p r = env2.describeInstances p r)
    (hm : ∀ p r i m ns, env1.metricQuery p r i m ns = env2.metricQuery p r i m ns) :
    buildReport env1 = buildReport env2 ∧
    ∀ profiles, get_profiles env1.config = .ok profiles →
      buildReport env1 = .ok (profiles.flatMap fun pr =>
        (get_all_instances env1 pr.1 pr.2).map fun iid => mkRow env1 pr.1 pr.2 iid) := by
  constructor
  · unfold buildReport
    rw [← hc]
    cases hp : get_profiles env1.config with
    | error e => rfl
    | ok profiles =>
      simp only []
      congr 1
      refine flatMap_congr fun pr _ => ?_
      have hg : get_all_instances env1 pr.1 pr.2 = get_all_instances env2 pr.1 pr.2 := by
        simp [get_all_instances, hd]
      rw [hg]
      exact List.map_congr_left fun iid _ => by
        simp [mkRow, get_instance_metrics, hm]
  · intro profiles hp
    unfold buildReport
    rw [hp]

/-- Witness for C7 at `envW` (compared with itself, the hypotheses hold
definitionally). -/
theorem report_deterministic_witness :
    buildReport envW = buildReport envW ∧
    ∀ profiles, get_profiles envW.config = .ok profiles →
      buildReport envW = .ok (profiles.flatMap fun pr =>
        (get_all_instances envW pr.1 pr.2).map fun iid => mkRow envW pr.1 pr.2 iid) :=
  report_deterministic envW envW rfl (fun _ _ => rfl) (fun _ _ _ _ _ => rfl)

/-- C6: whenever the profiles load (in particular with zero profiles, or
profiles with zero discoverable instances), the report builds without
error — its row count is the sum of the per-profile instance counts, zero
profiles giving zero rows — and the run still writes the (possibly empty)
Excel file first and then attempts the send: the file-write is the first
effect, a successful SMTP session completes the run with the mail sent,
and the run never terminates with a configuration error. -/
theorem empty_inputs_still_export_and_send (env : Env) (profiles : List (String × String))
    (h : get_profiles env.config = .ok profiles) :
    ∃ rows, buildReport env = .ok rows ∧
      rows.length = (profiles.map fun pr => (get_all_instances env pr.1 pr.2).length).sum ∧
      (profiles = [] → rows = []) ∧
      (mainRun env).1.head? = some (.fileWrite reportFilename (export_to_excel rows)) ∧
      (send_email env = .ok () → mainRun env =
        ([.fileWrite reportFilename (export_to_excel rows),
          .emailSent env.emailRecipient reportFilename], none)) ∧
      ∀ e, (mainRun env).2 ≠ some (.configError e) := by
  refine ⟨profiles.flatMap fun pr =>
    (get_all_instances env pr.1 pr.2).map fun iid => mkRow env pr.1 pr.2 iid, ?_, ?_, ?_, ?_, ?_, ?_⟩
  · unfold buildReport; rw [h]
  · rw [List.length_flatMap]
    congr 1
    exact List.map_congr_left fun pr _ => List.length_map _ _
  · rintro rfl; rfl
  all_goals
    have hb : buildReport env = .ok (profiles.flatMap fun pr =>
        (get_all_instances env pr.1 pr.2).map fun iid => mkRow env pr.1 pr.2 iid) := by
      unfold buildReport; rw [h]
  · unfold mainRun
    rw [hb]
    cases hs : send_email env <;> rfl
  · intro hs
    unfold mainRun
    rw [hb, hs]
  · intro e
    unfold mainRun
    rw [hb]
    cases hs : send_email env <;> simp

/-- Witness for C6 at `envEmpty`, whose configuration file is missing:
zero profiles, zero rows, and the empty report is still exported and
sent. -/
theorem empty_inputs_still_export_and_send_witness :
    ∃ rows, buildReport envEmpty = .ok rows ∧
      rows.length = (([] : List (String × String)).map fun pr =>
        (get_all_instances envEmpty pr.1 pr.2).length).sum ∧
      (([] : List (String × String)) = [] → rows = []) ∧
      (mainRun envEmpty).1.head? = some (.fileWrite reportFilename (export_to_excel rows)) ∧
      (send_email envEmpty = .ok () → mainRun envEmpty =
        ([.fileWrite reportFilename (export_to_excel rows),
          .emailSent envEmpty.emailRecipient reportFilename], none)) ∧
      ∀ e, (mainRun envEmpty).2 ≠ some (.configError e) :=
  empty_inputs_still_export_and_send envEmpty [] rfl

/-- C9: when the report builds and the SMTP session fails (authentication
or transmission), the run terminates with that mail error uncaught, and
its only effect is the file write that already happened: export strictly
precedes send. -/
theorem mail_failure_after_export (env : Env) (rows : List Row) (e : MailError)
    (hb : buildReport env = .ok rows) (hm : send_email env = .error e) :
    mainRun env =
      ([.fileWrite reportFilename (export_to_excel rows)], some (.mailError e)) := by
  unfold mainRun
  rw [hb, hm]

/-- Witness for C9: `envW` with a failing SMTP login still writes the
report file, then dies with the authentication error. -/
theorem mail_failure_after_export_witness :
    mainRun { envW with smtpOutcome := .error .authenticationError } =
      ([.fileWrite reportFilename (export_to_excel [rowW])],
        some (.mailError .authenticationError)) :=
  mail_failure_after_export { envW with smtpOutcome := .error .authenticationError }
    [rowW] .authenticationError (by rfl) rfl

/-- A configuration with one section that has its own region but no
`default` section at all. -/
def cfgNoDefault : ConfigFile :=
  { sections := [("foo", [("region", "us-west-1")])], defaults := [] }

/-- C4 counterexample: on a store with a section `foo` carrying its own
region but no `default` section, `get_profiles` raises `NoSectionError`
instead of returning the one-entry mapping the claim requires — Python
evaluates the `fallback=config.get('default', 'region')` argument eagerly
on every iteration, even when the section has its own region. -/
theorem profiles_missing_default_counterexample :
    get_profiles (some cfgNoDefault) = .error .noSection ∧
    get_profiles (some cfgNoDefault) ≠ .ok [("foo", "us-west-1")] := by
  constructor
  · rfl
  · intro hcontra
    exact absurd (rfl.trans hcontra :
      (.error .noSection : Except CfgError (List (String × String))) = .ok _) (by simp)

/-- In an association list with distinct keys, `lookup` of a member's key
finds that member's value. -/
lemma lookup_self_of_nodup {β : Type} (l : List (String × β))
    (hnd : (l.map Prod.fst).Nodup) :
    ∀ x ∈ l, l.lookup x.1 = some x.2 := by
  induction l with
  | nil => intro x hx; cases hx
  | cons y ys ih =>
    intro x hx
    rcases List.mem_cons.mp hx with rfl | hx2
    · simp [List.lookup]
    · have hy : y.1 ∉ ys.map Prod.fst := (List.nodup_cons.mp hnd).1
      have hne : (x.1 == y.1) = false := by
        rw [beq_eq_false_iff_ne]
        intro he
        exact hy (he ▸ List.mem_map_of_mem Prod.fst hx2)
      rw [List.lookup, hne]
      exact ih (List.nodup_cons.mp hnd).2 x hx2

/-- `configparser.get` with fallback, for a section whose options are
known: the section's own `region`, else the `DEFAULT` options' `region`,
else the fallback value. -/
lemma configGetD_eq (cfg : ConfigFile) (p : String) (opts : List (String × String)) (d : String)
    (h : cfg.sections.lookup p = some opts) :
    configGetD cfg p "region" d =
      ((opts.lookup "region").or (cfg.defaults.lookup "region")).getD d := by
  cases ho : opts.lookup "region" with
  | some v => simp [configGetD, configGet, h, ho]
  | none =>
    cases hdef : cfg.defaults.lookup "region" with
    | some v => simp [configGetD, configGet, h, ho, hdef]
    | none => simp [configGetD, configGet, h, ho, hdef]

/-- The loop of `get_profiles`, when the `default` region resolves,
produces one entry per section with the fallback region semantics. -/
lemma profilesLoop_ok (cfg : ConfigFile) (d : String)
    (hd : configGet cfg "default" "region" = .ok d) :
    ∀ l : List (String × List (String × String)),
      (∀ x ∈ l, cfg.sections.lookup x.1 = some x.2) →
      profilesLoop cfg l = .ok (l.map fun s =>
        (s.1, ((s.2.lookup "region").or (cfg.defaults.lookup "region")).getD d)) := by
  intro l
  induction l with
  | nil => intro _; rfl
  | cons x xs ih =>
    intro hmem
    obtain ⟨p, opts⟩ := x
    have h1 : cfg.sections.lookup p = some opts := hmem _ (List.mem_cons_self _ _)
    have h2 := ih fun y hy => hmem y (List.mem_cons_of_mem _ hy)
    simp only [profilesLoop, hd, h2, List.map_cons]
    rw [configGetD_eq cfg p opts d h1]

/-- C4 amended: a missing configuration source yields an empty mapping,
and on every store whose `default` section region resolves (section names
being unique, as `configparser` guarantees), `get_profiles` returns one
entry per named section, the region being the section's own `region`
option, else the `DEFAULT` options' `region`, else the `default`
section's region.  (When some section exists but the `default` region
does not resolve, the run instead crashes, as the counterexample
shows — the fallback argument is evaluated eagerly.) -/
theorem profiles_fallback_amended (cfg : ConfigFile) (d : String)
    (hnd : (cfg.sections.map Prod.fst).Nodup)
    (hd : configGet cfg "default" "region" = .ok d) :
    get_profiles (some cfg) = .ok (cfg.sections.map fun s =>
      (s.1, ((s.2.lookup "region").or (cfg.defaults.lookup "region")).getD d)) ∧
    get_profiles none = .ok [] := by
  refine ⟨?_, rfl⟩
  exact profilesLoop_ok cfg d hd cfg.sections
    (lookup_self_of_nodup cfg.sections hnd)

/-- A three-section store exercising all three region resolutions: own
region, `DEFAULT` options, and the `default`-section fallback. -/
def cfgFallback : ConfigFile :=
  { sections := [("default", [("region", "us-east-1")]),
                 ("prod", [("region", "eu-west-1")]),
                 ("dev", [])]
    defaults := [] }

/-- Witness for the amended C4 at `cfgFallback`. -/
theorem profiles_fallback_amended_witness :
    get_profiles (some cfgFallback) = .ok (cfgFallback.sections.map fun s =>
      (s.1, ((s.2.lookup "region").or (cfgFallback.defaults.lookup "region")).getD "us-east-1")) ∧
    get_profiles none = .ok [] :=
  profiles_fallback_amended cfgFallback "us-east-1" (by decide) (by rfl)

/-- C8 counterexample: exporting the empty report writes a table whose
column set is empty, not the fixed seven-column schema —
`pd.DataFrame([])` has no columns — although its row count (zero) does
match the report length. -/
theorem export_empty_schema_counterexample :
    (export_to_excel []).header = [] ∧
    (export_to_excel []).header ≠ fixedColumns ∧
    (export_to_excel []).rows.length = ([] : List Row).length := by
  refine ⟨rfl, ?_, rfl⟩
  intro hcontra
  exact absurd (rfl.symm.trans hcontra : ([] : List String) = fixedColumns) (by decide)

/-- Keys already present in the accumulator are not inserted again. -/
lemma foldl_dfInsertKey_absorb (ks : List String) :
    ∀ acc, (∀ k ∈ ks, k ∈ acc) → ks.foldl dfInsertKey acc = acc := by
  induction ks with
  | nil => intro acc _; rfl
  | cons k ks ih =>
    intro acc h
    have hk : k ∈ acc := h k (List.mem_cons_self _ _)
    rw [List.foldl_cons]
    have hinsert : dfInsertKey acc k = acc := by simp [dfInsertKey, hk]
    rw [hinsert]
    exact ih acc fun k2 hk2 => h k2 (List.mem_cons_of_mem _ hk2)

/-- A non-empty list of report-row dicts yields exactly the fixed column
list: the first row contributes all seven keys in dict order, later rows
add nothing new. -/
lemma dfColumns_report (r : Row) (rest : List Row) :
    dfColumns ((r :: rest).map Row.entries) = fixedColumns := by
  have hkeys : ∀ row : Row, row.entries.map Prod.fst = fixedColumns := fun _ => rfl
  have hfirst : fixedColumns.foldl dfInsertKey [] = fixedColumns := by decide
  have habsorb : fixedColumns.foldl dfInsertKey fixedColumns = fixedColumns :=
    foldl_dfInsertKey_absorb fixedColumns fixedColumns fun k hk => hk
  unfold dfColumns
  rw [List.map_cons, List.map_cons, List.flatten_cons, List.foldl_append, hkeys r, hfirst]
  induction rest with
  | nil => rfl
  | cons r2 rs ih =>
    rw [List.map_cons, List.map_cons, List.flatten_cons, List.foldl_append, hkeys r2, habsorb]
    exact ih

/-- C8 amended: for every non-empty report, the exported (and re-read)
table has the fixed seven-column schema — `Profile`, `Region`,
`Instance ID`, then the four metric names, in that order — as its header
and one data row per report row; for the empty report the row count still
matches (zero) but the column set is empty, as the counterexample
records. -/
theorem export_roundtrip_amended (report : List Row) (hne : report ≠ []) :
    (export_to_excel report).header = fixedColumns ∧
    (export_to_excel report).rows.length = report.length := by
  constructor
  · cases report with
    | nil => exact absurd rfl hne
    | cons r rest =>
      simp only [export_to_excel]
      exact dfColumns_report r rest
  · simp only [export_to_excel, List.length_map]

/-- Witness for the amended C8 at the one-row report `[rowW]`. -/
theorem export_roundtrip_amended_witness :
    (export_to_excel [rowW]).header = fixedColumns ∧
    (export_to_excel [rowW]).rows.length = [rowW].length :=
  export_roundtrip_amended [rowW] (by decide)

end EC2Report
